import Mathlib

/-!
Verification development for the PuppyGraph graph-store adapter
(`libs/community/langchain_community/graphs/puppygraph_graph.py`).

The Python module is embedded shallowly:
  * `Json` models the values produced by Python's `json.loads`;
    `json_loads` is an executable JSON parser (strict, like Python's
    `json` module: one top-level value, no trailing input).
  * Python `dict` construction is modelled by association lists with
    Python's update semantics: inserting an existing key replaces the
    value in place, a new key is appended (`pyDictInsert`).
  * Python exceptions are modelled by the `PyError` type and fallible
    steps return `Except PyError _`.  The spec's error taxonomy maps to
    the concrete Python exceptions as follows: ValidationError ≙
    `ValueError`, DependencyMissingError ≙ `ImportError`,
    SchemaParseError ≙ `json.JSONDecodeError`/`KeyError`/`TypeError`
    raised during normalization, UnsupportedOperationError ≙
    `NotImplementedError`.
  * The external PuppyGraph client is not part of the repository; the
    adapter's interactions with it are made explicit: construction-time
    network activity is returned as a `List NetworkCall` trace, `query`
    returns the client call it performs (`ClientCall`), and operations
    that read a fresh schema string from the client take that string as
    an explicit argument.
-/

namespace PuppyGraphVerif

/-- A JSON value as produced by Python's `json.loads`: objects keep their
keys in insertion order (duplicate keys collapse, last value wins, as in
Python dicts).  Numbers keep their literal spelling. -/
inductive Json where
  | null : Json
  | bool : Bool → Json
  | num : String → Json
  | str : String → Json
  | arr : List Json → Json
  | obj : List (String × Json) → Json
deriving Repr

mutual
/-- Structural equality test for `Json` (deriving is unavailable for this
nested inductive). -/
def Json.beq : Json → Json → Bool
  | Json.null, Json.null => true
  | Json.bool a, Json.bool b => a == b
  | Json.num a, Json.num b => a == b
  | Json.str a, Json.str b => a == b
  | Json.arr xs, Json.arr ys => Json.beqList xs ys
  | Json.obj kvs, Json.obj kvs2 => Json.beqObj kvs kvs2
  | _, _ => false

/-- Pointwise equality test for JSON arrays. -/
def Json.beqList : List Json → List Json → Bool
  | [], [] => true
  | x :: xs, y :: ys => Json.beq x y && Json.beqList xs ys
  | _, _ => false

/-- Pointwise equality test for JSON object entry lists. -/
def Json.beqObj : List (String × Json) → List (String × Json) → Bool
  | [], [] => true
  | (k1, v1) :: xs, (k2, v2) :: ys => k1 == k2 && Json.beq v1 v2 && Json.beqObj xs ys
  | _, _ => false
end

/-- `Json.beqList` is pointwise equality, given elementwise soundness. -/
theorem Json.beqList_iff_of (xs : List Json)
    (ih : ∀ x ∈ xs, ∀ y, (Json.beq x y = true) ↔ x = y) :
    ∀ ys, (Json.beqList xs ys = true) ↔ xs = ys := by
  induction xs with
  | nil => intro ys; cases ys <;> simp [Json.beqList]
  | cons x xs ihx =>
    intro ys
    cases ys with
    | nil => simp [Json.beqList]
    | cons y ys =>
      have h1 := ih x (by simp)
      have h2 := ihx (fun x hx => ih x (by simp [hx]))
      simp [Json.beqList, h1, h2 ys]

/-- `Json.beqObj` is pointwise equality, given elementwise soundness on
the values. -/
theorem Json.beqObj_iff_of (xs : List (String × Json))
    (ih : ∀ p ∈ xs, ∀ y, (Json.beq p.2 y = true) ↔ p.2 = y) :
    ∀ ys, (Json.beqObj xs ys = true) ↔ xs = ys := by
  induction xs with
  | nil => intro ys; cases ys <;> simp [Json.beqObj]
  | cons p xs ihx =>
    intro ys
    cases ys with
    | nil => cases p; simp [Json.beqObj]
    | cons q ys =>
      cases p with
      | mk k1 v1 =>
        cases q with
        | mk k2 v2 =>
          have h1 := ih (k1, v1) (by simp)
          have h2 := ihx (fun p hp => ih p (by simp [hp]))
          simp [Json.beqObj, h1, h2 ys, and_assoc]

/-- `Json.beq` decides equality of JSON values. -/
theorem Json.beq_iff : ∀ (a b : Json), (Json.beq a b = true) ↔ a = b := by
  have H : ∀ (n : Nat) (a : Json), sizeOf a ≤ n → ∀ b, (Json.beq a b = true) ↔ a = b := by
    intro n
    induction n with
    | zero =>
      intro a ha
      exact absurd ha (by cases a <;> simp)
    | succ n ih =>
      intro a ha b
      cases a with
      | null => cases b <;> simp [Json.beq]
      | bool x => cases b <;> simp [Json.beq]
      | num s => cases b <;> simp [Json.beq]
      | str s => cases b <;> simp [Json.beq]
      | arr xs =>
        cases b <;> simp [Json.beq]
        case arr ys =>
          refine Json.beqList_iff_of xs (fun x hx y => ih x ?_ y) ys
          have hlt : sizeOf x < sizeOf xs := List.sizeOf_lt_of_mem hx
          have hspec : sizeOf (Json.arr xs) = 1 + sizeOf xs := by simp
          omega
      | obj kvs =>
        cases b <;> simp [Json.beq]
        case obj kvs2 =>
          refine Json.beqObj_iff_of kvs (fun p hp y => ih p.2 ?_ y) kvs2
          have hlt : sizeOf p < sizeOf kvs := List.sizeOf_lt_of_mem hp
          have hlt2 : sizeOf p.2 < sizeOf p := by
            cases p with
            | mk k v => simp
          have hspec : sizeOf (Json.obj kvs) = 1 + sizeOf kvs := by simp
          omega
  intro a b
  exact H (sizeOf a) a (Nat.le_refl _) b

instance : DecidableEq Json := fun a b =>
  decidable_of_iff (Json.beq a b = true) (Json.beq_iff a b)

/-- Python exceptions that the module can raise, with their messages
where the message is fixed by the source. -/
inductive PyError where
  | valueError : String → PyError
  | importError : String → PyError
  | notImplementedError : String → PyError
  | keyError : String → PyError
  | typeError : PyError
  | attributeError : PyError
  | jsonDecodeError : PyError
deriving DecidableEq, Repr

/-- First-match lookup in a JSON object's entry list (entry lists built by
the parser have distinct keys, so first match is the Python dict lookup). -/
def objLookup (k : String) : List (String × Json) → Option Json
  | [] => none
  | (k2, v) :: rest => if k2 = k then some v else objLookup k rest

/-- Python `x[k]` for a string key `k`: `KeyError` when a dict lacks the
key, `TypeError` when `x` is not a dict. -/
def Json.getItem : Json → String → Except PyError Json
  | Json.obj kvs, k =>
    match objLookup k kvs with
    | some v => Except.ok v
    | none => Except.error (PyError.keyError k)
  | _, _ => Except.error PyError.typeError

/-- Python `x.get(k, default)`: `AttributeError` when `x` is not a dict. -/
def Json.getDefault : Json → String → Json → Except PyError Json
  | Json.obj kvs, k, dflt => Except.ok ((objLookup k kvs).getD dflt)
  | _, _, _ => Except.error PyError.attributeError

/-- Python iteration over a JSON value: lists yield elements, dicts yield
keys, strings yield one-character strings, everything else raises
`TypeError`. -/
def Json.toIter : Json → Except PyError (List Json)
  | Json.arr xs => Except.ok xs
  | Json.obj kvs => Except.ok (kvs.map (fun p => Json.str p.1))
  | Json.str s => Except.ok (s.data.map (fun c => Json.str (String.mk [c])))
  | _ => Except.error PyError.typeError

/-- Truthiness of a JSON number literal: nonzero mantissa. -/
def numTruthy (lit : String) : Bool :=
  (lit.data.takeWhile (fun c => c != 'e' && c != 'E')).any
    (fun c => c.isDigit && c != '0')

/-- Python truthiness of a JSON value. -/
def truthy : Json → Bool
  | Json.null => false
  | Json.bool b => b
  | Json.num lit => numTruthy lit
  | Json.str s => s != ""
  | Json.arr xs => !xs.isEmpty
  | Json.obj kvs => !kvs.isEmpty

/-- Python dict insertion for string keys: an existing key keeps its
position and gets the new value; a new key is appended. -/
def pyDictInsertS : List (String × Json) → String → Json → List (String × Json)
  | [], k, v => [(k, v)]
  | (k2, v2) :: rest, k, v =>
    if k2 = k then (k, v) :: rest else (k2, v2) :: pyDictInsertS rest k v

/-- Python dict insertion for JSON keys (used for the dicts the
normalizer builds, whose keys are the labels found in the schema). -/
def pyDictInsert {α : Type} : List (Json × α) → Json → α → List (Json × α)
  | [], k, v => [(k, v)]
  | (k2, v2) :: rest, k, v =>
    if k2 = k then (k, v) :: rest else (k2, v2) :: pyDictInsert rest k v

/-- A Python dict built by inserting the pairs of `l` in order into an
empty dict: the semantics of a dict comprehension. -/
def pyDictOfList {α : Type} (l : List (Json × α)) : List (Json × α) :=
  l.foldl (fun d p => pyDictInsert d p.1 p.2) []

/-- Lookup in a dict built with `pyDictInsert` (keys are distinct by
construction, so first match suffices). -/
def pyLookup {α : Type} (k : Json) : List (Json × α) → Option α
  | [] => none
  | (k2, v) :: rest => if k2 = k then some v else pyLookup k rest

/-- The value at the LAST occurrence of key `k` in a raw pair list: what
a Python dict built by inserting those pairs in order associates to `k`
(later insertions overwrite earlier ones). -/
def lastLookup {α : Type} (k : Json) : List (Json × α) → Option α
  | [] => none
  | (k2, v) :: rest =>
    match lastLookup k rest with
    | some r => some r
    | none => if k2 = k then some v else none

/-- Whitespace skipping for the JSON parser. -/
def skipWs : List Char → List Char
  | [] => []
  | c :: cs => if c = ' ' ∨ c = '\t' ∨ c = '\n' ∨ c = '\r' then skipWs cs else c :: cs

/-- Value of a hexadecimal digit. -/
def hexVal (c : Char) : Option Nat :=
  if '0' ≤ c ∧ c ≤ '9' then some (c.toNat - '0'.toNat)
  else if 'a' ≤ c ∧ c ≤ 'f' then some (c.toNat - 'a'.toNat + 10)
  else if 'A' ≤ c ∧ c ≤ 'F' then some (c.toNat - 'A'.toNat + 10)
  else none

/-- JSON string escape characters. -/
def escChar : Char → Option Char
  | '"' => some '"'
  | '\\' => some '\\'
  | '/' => some '/'
  | 'b' => some (Char.ofNat 8)
  | 'f' => some (Char.ofNat 12)
  | 'n' => some '\n'
  | 'r' => some '\r'
  | 't' => some '\t'
  | _ => none

/-- Body of a JSON string literal, after the opening quote. -/
def parseStringBody (acc : List Char) : List Char → Option (String × List Char)
  | [] => none
  | '"' :: rest => some (String.mk acc.reverse, rest)
  | '\\' :: 'u' :: h1 :: h2 :: h3 :: h4 :: rest =>
    match hexVal h1, hexVal h2, hexVal h3, hexVal h4 with
    | some a, some b, some c, some d =>
      parseStringBody (Char.ofNat (((a * 16 + b) * 16 + c) * 16 + d) :: acc) rest
    | _, _, _, _ => none
  | '\\' :: e :: rest =>
    match escChar e with
    | some c => parseStringBody (c :: acc) rest
    | none => none
  | c :: rest => parseStringBody (c :: acc) rest

/-- Longest digit run at the front of the input. -/
def takeDigits : List Char → (List Char × List Char)
  | [] => ([], [])
  | c :: cs =>
    if c.isDigit then
      match takeDigits cs with
      | (ds, rest) => (c :: ds, rest)
    else ([], c :: cs)

/-- Optional fraction part of a JSON number. -/
def parseFrac (cs : List Char) : Option (List Char × List Char) :=
  match cs with
  | '.' :: rest =>
    match takeDigits rest with
    | ([], _) => none
    | (ds, cs2) => some ('.' :: ds, cs2)
  | _ => some ([], cs)

/-- Optional exponent part of a JSON number. -/
def parseExp (cs : List Char) : Option (List Char × List Char) :=
  match cs with
  | c :: rest =>
    if c = 'e' ∨ c = 'E' then
      match rest with
      | '+' :: r =>
        match takeDigits r with
        | ([], _) => none
        | (ds, cs2) => some (c :: '+' :: ds, cs2)
      | '-' :: r =>
        match takeDigits r with
        | ([], _) => none
        | (ds, cs2) => some (c :: '-' :: ds, cs2)
      | _ =>
        match takeDigits rest with
        | ([], _) => none
        | (ds, cs2) => some (c :: ds, cs2)
    else some ([], cs)
  | [] => some ([], [])

/-- A JSON number literal (strict grammar: no leading zeros, nonempty
integer, fraction and exponent parts), kept as its literal text. -/
def parseNumber (cs : List Char) : Option (String × List Char) :=
  match cs with
  | '-' :: cs1 =>
    match takeDigits cs1 with
    | ([], _) => none
    | (ds, cs2) =>
      if 1 < ds.length ∧ ds.headD ' ' = '0' then none
      else
        match parseFrac cs2 with
        | none => none
        | some (fr, cs3) =>
          match parseExp cs3 with
          | none => none
          | some (ex, cs4) => some (String.mk ('-' :: (ds ++ fr ++ ex)), cs4)
  | _ =>
    match takeDigits cs with
    | ([], _) => none
    | (ds, cs2) =>
      if 1 < ds.length ∧ ds.headD ' ' = '0' then none
      else
        match parseFrac cs2 with
        | none => none
        | some (fr, cs3) =>
          match parseExp cs3 with
          | none => none
          | some (ex, cs4) => some (String.mk (ds ++ fr ++ ex), cs4)

/-- Literal matcher for `null`, `true`, `false`. -/
def expectLit : List Char → List Char → Option (List Char)
  | [], cs => some cs
  | l :: ls, c :: cs => if c = l then expectLit ls cs else none
  | _ :: _, [] => none

mutual
/-- One JSON value (fuel-indexed recursive descent). -/
def parseValue : Nat → List Char → Option (Json × List Char)
  | 0, _ => none
  | Nat.succ fuel, cs =>
    match skipWs cs with
    | [] => none
    | c :: rest =>
      if c = 'n' then (expectLit ['u', 'l', 'l'] rest).map (fun r => (Json.null, r))
      else if c = 't' then (expectLit ['r', 'u', 'e'] rest).map (fun r => (Json.bool true, r))
      else if c = 'f' then (expectLit ['a', 'l', 's', 'e'] rest).map (fun r => (Json.bool false, r))
      else if c = '"' then (parseStringBody [] rest).map (fun p => (Json.str p.1, p.2))
      else if c = '[' then
        match skipWs rest with
        | ']' :: r2 => some (Json.arr [], r2)
        | r2 =>
          match parseElems fuel r2 with
          | some (xs, r3) => some (Json.arr xs, r3)
          | none => none
      else if c = '\x7b' then
        match skipWs rest with
        | '\x7d' :: r2 => some (Json.obj [], r2)
        | r2 =>
          match parseMembers fuel [] r2 with
          | some (kvs, r3) => some (Json.obj kvs, r3)
          | none => none
      else
        match parseNumber (c :: rest) with
        | some (lit, r2) => some (Json.num lit, r2)
        | none => none

/-- Comma-separated JSON array elements up to the closing bracket. -/
def parseElems : Nat → List Char → Option (List Json × List Char)
  | 0, _ => none
  | Nat.succ fuel, cs =>
    match parseValue fuel cs with
    | none => none
    | some (v, rest) =>
      match skipWs rest with
      | ',' :: r2 =>
        match parseElems fuel r2 with
        | some (vs, r3) => some (v :: vs, r3)
        | none => none
      | ']' :: r2 => some ([v], r2)
      | _ => none

/-- Comma-separated JSON object members up to the closing brace,
accumulating with Python dict semantics (duplicate keys: last wins). -/
def parseMembers : Nat → List (String × Json) → List Char →
    Option (List (String × Json) × List Char)
  | 0, _, _ => none
  | Nat.succ fuel, acc, cs =>
    match skipWs cs with
    | '"' :: r1 =>
      match parseStringBody [] r1 with
      | none => none
      | some (k, r2) =>
        match skipWs r2 with
        | ':' :: r3 =>
          match parseValue fuel r3 with
          | none => none
          | some (v, r4) =>
            match skipWs r4 with
            | ',' :: r5 => parseMembers fuel (pyDictInsertS acc k v) r5
            | '\x7d' :: r5 => some (pyDictInsertS acc k v, r5)
            | _ => none
        | _ => none
    | _ => none
end

/-- Python `json.loads`: parse exactly one JSON value, allowing only
trailing whitespace; any failure is a `json.JSONDecodeError`. -/
def json_loads (s : String) : Except PyError Json :=
  match parseValue (2 * s.length + 2) s.data with
  | some (j, rest) =>
    match skipWs rest with
    | [] => Except.ok j
    | _ => Except.error PyError.jsonDecodeError
  | none => Except.error PyError.jsonDecodeError

/-- One `{"property": ..., "type": ...}` entry of a property list in the
structured schema. -/
structure PropEntry where
  property : Json
  type : Json
deriving DecidableEq, Repr

/-- One `{"start": ..., "end": ..., "type": ...}` entry of the
`relationships` list.  `end` is a Lean keyword, hence the quoted field
name. -/
structure RelEntry where
  start : Json
  «end» : Json
  type : Json
deriving DecidableEq, Repr

/-- The structured schema returned by `_to_structured_schema`: the
`node_props` and `rel_props` Python dicts are modelled as association
lists built with Python dict semantics (`pyDictOfList`). -/
structure StructuredSchema where
  node_props : List (Json × List PropEntry)
  rel_props : List (Json × List PropEntry)
  relationships : List RelEntry
deriving DecidableEq, Repr

/-- Monadic map over a list, left to right, stopping at the first error:
the evaluation order of a Python list comprehension. -/
def mapE {α β : Type} (f : α → Except PyError β) : List α → Except PyError (List β)
  | [] => Except.ok []
  | x :: xs =>
    match f x with
    | Except.error e => Except.error e
    | Except.ok y =>
      match mapE f xs with
      | Except.error e => Except.error e
      | Except.ok ys => Except.ok (y :: ys)

/-- `{"property": attr["name"], "type": attr["type"]}` for one attribute
object (lines 106-109 and 116-119 of the source). -/
def attrEntry (attr : Json) : Except PyError PropEntry :=
  match attr.getItem "name" with
  | Except.error e => Except.error e
  | Except.ok n =>
    match attr.getItem "type" with
    | Except.error e => Except.error e
    | Except.ok t => Except.ok { property := n, type := t }

/-- One entry of the `node_props` dict comprehension: key
`vertex["label"]`, value the list built from
`vertex.get("attributes", [])` (lines 105-111). -/
def vertexEntry (vertex : Json) : Except PyError (Json × List PropEntry) :=
  match vertex.getItem "label" with
  | Except.error e => Except.error e
  | Except.ok label =>
    match vertex.getDefault "attributes" (Json.arr []) with
    | Except.error e => Except.error e
    | Except.ok attrsJ =>
      match attrsJ.toIter with
      | Except.error e => Except.error e
      | Except.ok attrs =>
        match mapE attrEntry attrs with
        | Except.error e => Except.error e
        | Except.ok props => Except.ok (label, props)

/-- One iteration of the `rel_props` dict comprehension (lines 115-123):
first the filter `if edge.get("attributes")` (no default, so `None` when
the key is missing), then, if it passes, key `edge["label"]` and the
value list from `edge.get("attributes", [])`; `none` when the filter
rejects the edge. -/
def edgePropEntry (edge : Json) : Except PyError (Option (Json × List PropEntry)) :=
  match edge.getDefault "attributes" Json.null with
  | Except.error e => Except.error e
  | Except.ok a =>
    if truthy a then
      match edge.getItem "label" with
      | Except.error e => Except.error e
      | Except.ok label =>
        match edge.getDefault "attributes" (Json.arr []) with
        | Except.error e => Except.error e
        | Except.ok attrsJ =>
          match attrsJ.toIter with
          | Except.error e => Except.error e
          | Except.ok attrs =>
            match mapE attrEntry attrs with
            | Except.error e => Except.error e
            | Except.ok props => Except.ok (some (label, props))
    else Except.ok none

/-- One entry of the `relationships` list comprehension (lines 126-130):
`{"start": edge["from"], "end": edge["to"], "type": edge["label"]}`. -/
def edgeRelEntry (edge : Json) : Except PyError RelEntry :=
  match edge.getItem "from" with
  | Except.error e => Except.error e
  | Except.ok f =>
    match edge.getItem "to" with
    | Except.error e => Except.error e
    | Except.ok t =>
      match edge.getItem "label" with
      | Except.error e => Except.error e
      | Except.ok l => Except.ok { start := f, «end» := t, type := l }

/-- The body of `_to_structured_schema` after `json.loads` (lines
103-133), on the decoded value.  Mirrors Python's evaluation order: the
`node_props` comprehension (which reads `schema_dict["vertices"]`) runs
first, then the `rel_props` comprehension and the `relationships`
comprehension (each reading `schema_dict["edges"]`). -/
def _to_structured_schema_dict (schema_dict : Json) : Except PyError StructuredSchema :=
  match schema_dict.getItem "vertices" with
  | Except.error e => Except.error e
  | Except.ok vertices =>
    match vertices.toIter with
    | Except.error e => Except.error e
    | Except.ok vlist =>
      match mapE vertexEntry vlist with
      | Except.error e => Except.error e
      | Except.ok nodePairs =>
        match schema_dict.getItem "edges" with
        | Except.error e => Except.error e
        | Except.ok edges =>
          match edges.toIter with
          | Except.error e => Except.error e
          | Except.ok elist =>
            match mapE edgePropEntry elist with
            | Except.error e => Except.error e
            | Except.ok relPairsOpt =>
              match schema_dict.getItem "edges" with
              | Except.error e => Except.error e
              | Except.ok edges2 =>
                match edges2.toIter with
                | Except.error e => Except.error e
                | Except.ok elist2 =>
                  match mapE edgeRelEntry elist2 with
                  | Except.error e => Except.error e
                  | Except.ok rels =>
                    Except.ok
                      { node_props := pyDictOfList nodePairs,
                        rel_props := pyDictOfList (relPairsOpt.filterMap id),
                        relationships := rels }

/-- `_to_structured_schema` (lines 100-133): `json.loads` the cached
schema string, then reshape it. -/
def _to_structured_schema (schema_json_str : String) : Except PyError StructuredSchema :=
  match json_loads schema_json_str with
  | Except.error e => Except.error e
  | Except.ok schema_dict => _to_structured_schema_dict schema_dict

/-- `schema_dict["vertices"]`, made iterable (the vertex list the
`node_props` comprehension ranges over). -/
def verticesOf (schema_dict : Json) : Except PyError (List Json) :=
  match schema_dict.getItem "vertices" with
  | Except.error e => Except.error e
  | Except.ok vertices => vertices.toIter

/-- `schema_dict["edges"]`, made iterable (the edge list the `rel_props`
and `relationships` comprehensions range over). -/
def edgesOf (schema_dict : Json) : Except PyError (List Json) :=
  match schema_dict.getItem "edges" with
  | Except.error e => Except.error e
  | Except.ok edges => edges.toIter

/-- The module constant `_GREMLIN_STR` (line 7). -/
def _GREMLIN_STR : String := "gremlin"

/-- The module constant `_CYPHER_STR` (line 8). -/
def _CYPHER_STR : String := "cypher"

/-- `PuppyGraphHostConfig` of the external `puppygraph` package: the
host/credential bundle the adapter builds at line 60-62.  Modelled from
the spec: "an external client object constructed from a
host-configuration value (ip address, username, password)". -/
structure PuppyGraphHostConfig where
  ip : String
  username : String
  password : String
deriving DecidableEq, Repr

/-- `PuppyGraphClient` of the external `puppygraph` package, as held by
the adapter.  Modelled from the spec: the client is an externally-owned
handle acquired once at construction; its operations are represented by
the explicit call/trace values below. -/
structure PuppyGraphClient where
  config : PuppyGraphHostConfig
deriving DecidableEq, Repr

/-- `GraphDocument` of `langchain_community.graphs.graph_document` (not
under src).  Modelled from the spec: an opaque document payload;
`add_graph_documents` never inspects it. -/
structure GraphDocument where
  payload : String
deriving DecidableEq, Repr

/-- The adapter's instance state: `self._query_language`, `self._client`
and `self._schema_json_str` (lines 58-65). -/
structure PuppyGraph where
  _query_language : String
  _client : PuppyGraphClient
  _schema_json_str : String
deriving DecidableEq, Repr

/-- Network activity of the constructor, recorded as an explicit trace:
building the client (which opens the connection) and the initial
`client.get_schema()` fetch. -/
inductive NetworkCall where
  | constructClient : PuppyGraphHostConfig → NetworkCall
  | get_schema : NetworkCall
deriving DecidableEq, Repr

/-- `PuppyGraph.__init__` (lines 31-65).  `puppygraph_importable` says
whether `import puppygraph` succeeds (line 46-51); `fetched_schema` is
the string the external client's `get_schema()` returns when the
constructor reaches line 65.  The second component is the trace of
network interactions performed. -/
def PuppyGraph.init (query_language ip_address username password : String)
    (puppygraph_importable : Bool) (fetched_schema : String) :
    Except PyError PuppyGraph × List NetworkCall :=
  if puppygraph_importable = false then
    (Except.error (PyError.importError
      "Please install puppygraph first: `pip3 install puppygraph`"), [])
  else if query_language ∉ [_GREMLIN_STR, _CYPHER_STR] then
    (Except.error (PyError.valueError
      ("Query language must be either " ++ _GREMLIN_STR ++ " or " ++ _CYPHER_STR ++ ".")), [])
  else
    (Except.ok
      { _query_language := query_language,
        _client := { config := { ip := ip_address, username := username, password := password } },
        _schema_json_str := fetched_schema },
     [NetworkCall.constructClient { ip := ip_address, username := username, password := password },
      NetworkCall.get_schema])

/-- The `get_schema` property (lines 67-70): returns the cached raw
schema string; a pure read, no client interaction. -/
def PuppyGraph.get_schema (g : PuppyGraph) : String :=
  g._schema_json_str

/-- The `get_structured_schema` property (lines 72-75): normalizes the
cached raw schema string on every access. -/
def PuppyGraph.get_structured_schema (g : PuppyGraph) : Except PyError StructuredSchema :=
  _to_structured_schema g._schema_json_str

/-- The client call `query` dispatches to: either
`client.gremlin_query(query=query)` (query text only) or
`client.cypher_query(query=query, params=params)`. -/
inductive ClientCall where
  | gremlin_query : String → ClientCall
  | cypher_query : String → List (String × Json) → ClientCall
deriving DecidableEq, Repr

/-- `PuppyGraph.query` (lines 77-86): routes on `self._query_language`
and returns the client call performed (the external client's reply is
returned to the caller unmodified, so the call descriptor is the whole
observable behavior of this layer). -/
def PuppyGraph.query (g : PuppyGraph) (query : String) (params : List (String × Json)) :
    Except PyError ClientCall :=
  if g._query_language = _GREMLIN_STR then
    Except.ok (ClientCall.gremlin_query query)
  else if g._query_language = _CYPHER_STR then
    Except.ok (ClientCall.cypher_query query params)
  else
    Except.error (PyError.valueError
      ("Query language must be either " ++ _GREMLIN_STR ++ " or " ++ _CYPHER_STR ++ "."))

/-- `PuppyGraph.query` with the `params` argument omitted: the source
defaults it to the empty dict (`params: dict = {}`, line 77). -/
def PuppyGraph.queryDefaultParams (g : PuppyGraph) (query : String) :
    Except PyError ClientCall :=
  g.query query []

/-- `PuppyGraph.refresh_schema` (lines 88-90): replaces the cached schema
string with the string freshly fetched from the client (passed
explicitly), returns nothing (only the updated state). -/
def PuppyGraph.refresh_schema (g : PuppyGraph) (fetched_schema : String) : PuppyGraph :=
  { g with _schema_json_str := fetched_schema }

/-- `PuppyGraph.add_graph_documents` (lines 92-97): unconditionally
raises `NotImplementedError`; the unchanged state is returned alongside
to make the absence of mutation explicit. -/
def PuppyGraph.add_graph_documents (g : PuppyGraph) (graph_documents : List GraphDocument)
    (include_source : Bool) : Except PyError Unit × PuppyGraph :=
  (Except.error (PyError.notImplementedError
    "Please add the node or relationships directly in the corresponding relational database."),
   g)

/-! Helper lemmas about the embedding. -/

/-- `mapE` succeeds exactly when `f` succeeds pointwise, producing the
outputs in order. -/
theorem mapE_ok_forall₂ {α β : Type} (f : α → Except PyError β) :
    ∀ (l : List α) (ys : List β),
      mapE f l = Except.ok ys ↔ List.Forall₂ (fun x y => f x = Except.ok y) l ys := by
  intro l
  induction l with
  | nil =>
    intro ys
    constructor
    · intro h
      simp only [mapE] at h
      cases h
      exact List.Forall₂.nil
    · intro h
      cases h
      rfl
  | cons x xs ih =>
    intro ys
    constructor
    · intro h
      simp only [mapE] at h
      cases hfx : f x with
      | error e => rw [hfx] at h; cases h
      | ok y =>
        rw [hfx] at h
        cases hm : mapE f xs with
        | error e => rw [hm] at h; cases h
        | ok zs =>
          rw [hm] at h
          cases h
          exact List.Forall₂.cons hfx ((ih zs).mp hm)
    · intro h
      cases h with
      | cons hxy htail =>
        simp only [mapE]
        rw [hxy, (ih _).mpr htail]

/-- Every element on the left of a `Forall₂` has a related partner. -/
theorem forall₂_mem_left {α β : Type} {R : α → β → Prop} :
    ∀ {l1 : List α} {l2 : List β}, List.Forall₂ R l1 l2 →
      ∀ x ∈ l1, ∃ y ∈ l2, R x y := by
  intro l1 l2 h
  induction h with
  | nil => intro x hx; cases hx
  | cons hr _ ih =>
    intro x hx
    rcases List.mem_cons.mp hx with rfl | hx
    · exact ⟨_, List.mem_cons_self _ _, hr⟩
    · rcases ih x hx with ⟨y, hy, hxy⟩
      exact ⟨y, List.mem_cons_of_mem _ hy, hxy⟩

/-- Every element on the right of a `Forall₂` has a related partner. -/
theorem forall₂_mem_right {α β : Type} {R : α → β → Prop} :
    ∀ {l1 : List α} {l2 : List β}, List.Forall₂ R l1 l2 →
      ∀ y ∈ l2, ∃ x ∈ l1, R x y := by
  intro l1 l2 h
  induction h with
  | nil => intro y hy; cases hy
  | cons hr _ ih =>
    intro y hy
    rcases List.mem_cons.mp hy with rfl | hy
    · exact ⟨_, List.mem_cons_self _ _, hr⟩
    · rcases ih y hy with ⟨x, hx, hxy⟩
      exact ⟨x, List.mem_cons_of_mem _ hx, hxy⟩

/-- A `Forall₂` whose left side is an append splits accordingly. -/
theorem forall₂_append_inv {α β : Type} {R : α → β → Prop} :
    ∀ (l1 l2 : List α) {ys : List β}, List.Forall₂ R (l1 ++ l2) ys →
      ∃ y1 y2, ys = y1 ++ y2 ∧ List.Forall₂ R l1 y1 ∧ List.Forall₂ R l2 y2 := by
  intro l1
  induction l1 with
  | nil =>
    intro l2 ys h
    exact ⟨[], ys, rfl, List.Forall₂.nil, h⟩
  | cons x xs ih =>
    intro l2 ys h
    cases h with
    | cons hr htail =>
      rcases ih l2 htail with ⟨y1, y2, rfl, h1, h2⟩
      exact ⟨_ :: y1, y2, rfl, List.Forall₂.cons hr h1, h2⟩

/-- Looking up after a Python dict insertion. -/
theorem pyLookup_insert {α : Type} (k k2 : Json) (v : α) :
    ∀ d, pyLookup k (pyDictInsert d k2 v) = if k2 = k then some v else pyLookup k d := by
  intro d
  induction d with
  | nil => simp [pyDictInsert, pyLookup]
  | cons p rest ih =>
    cases p with
    | mk k3 v3 =>
      simp only [pyDictInsert]
      by_cases h32 : k3 = k2
      · rw [if_pos h32]
        by_cases h2k : k2 = k
        · simp only [pyLookup, if_pos h2k]
        · have h3k : ¬ k3 = k := by rw [h32]; exact h2k
          simp only [pyLookup, if_neg h2k, if_neg h3k]
      · rw [if_neg h32]
        by_cases h3k : k3 = k
        · have h2k : ¬ k2 = k := fun h => h32 (h3k.trans h.symm)
          simp only [pyLookup, if_pos h3k, if_neg h2k]
        · simp only [pyLookup, if_neg h3k, ih]

/-- Folding Python dict insertions over a pair list: the result of a
lookup is the last matching pair of the list, else whatever the starting
dict held. -/
theorem pyLookup_foldl {α : Type} (k : Json) :
    ∀ (ps : List (Json × α)) (d : List (Json × α)),
      pyLookup k (ps.foldl (fun d p => pyDictInsert d p.1 p.2) d) =
        match lastLookup k ps with
        | some v => some v
        | none => pyLookup k d := by
  intro ps
  induction ps with
  | nil => intro d; simp [lastLookup]
  | cons p rest ih =>
    intro d
    cases p with
    | mk k2 v =>
      simp only [List.foldl_cons, lastLookup]
      rw [ih]
      cases h : lastLookup k rest with
      | some r => simp
      | none =>
        simp only [pyLookup_insert]
        by_cases hk : k2 = k <;> simp [hk]

/-- A dict built by a Python dict comprehension reads back the LAST pair
generated for each key. -/
theorem pyLookup_pyDictOfList {α : Type} (k : Json) (ps : List (Json × α)) :
    pyLookup k (pyDictOfList ps) = lastLookup k ps := by
  rw [pyDictOfList, pyLookup_foldl]
  cases h : lastLookup k ps <;> simp [pyLookup]

/-- `lastLookup` over an appended list prefers the right part. -/
theorem lastLookup_append {α : Type} (k : Json) :
    ∀ (ps qs : List (Json × α)),
      lastLookup k (ps ++ qs) =
        match lastLookup k qs with
        | some v => some v
        | none => lastLookup k ps := by
  intro ps qs
  induction ps with
  | nil => cases h : lastLookup k qs <;> simp [lastLookup, h]
  | cons p rest ih =>
    cases p with
    | mk k2 v =>
      have hstep : lastLookup k ((k2, v) :: (rest ++ qs)) =
          match lastLookup k (rest ++ qs) with
          | some r => some r
          | none => if k2 = k then some v else none := rfl
      rw [List.cons_append, hstep, ih]
      cases h : lastLookup k qs <;> cases h2 : lastLookup k rest <;>
        simp [lastLookup, h2]

/-- `lastLookup` misses exactly when no pair carries the key. -/
theorem lastLookup_eq_none {α : Type} (k : Json) :
    ∀ (ps : List (Json × α)), lastLookup k ps = none ↔ ∀ p ∈ ps, p.1 ≠ k := by
  intro ps
  induction ps with
  | nil => simp [lastLookup]
  | cons p rest ih =>
    cases p with
    | mk k2 v =>
      constructor
      · intro h
        simp only [lastLookup] at h
        cases hr : lastLookup k rest with
        | some r => rw [hr] at h; cases h
        | none =>
          rw [hr] at h
          intro q hq
          rcases List.mem_cons.mp hq with rfl | hq
          · intro hk
            rw [if_pos hk] at h
            cases h
          · exact (ih.mp hr) q hq
      · intro h
        have hr : lastLookup k rest = none :=
          ih.mpr (fun q hq => h q (List.mem_cons_of_mem _ hq))
        have hk2 : ¬ k2 = k := h (k2, v) (List.mem_cons_self _ _)
        simp [lastLookup, hr, hk2]

/-- A successful `lastLookup` comes from an actual pair of the list. -/
theorem lastLookup_some_mem {α : Type} (k : Json) :
    ∀ (ps : List (Json × α)) (v : α), lastLookup k ps = some v → (k, v) ∈ ps := by
  intro ps
  induction ps with
  | nil => intro v h; cases h
  | cons p rest ih =>
    intro v h
    cases p with
    | mk k2 w =>
      simp only [lastLookup] at h
      cases hr : lastLookup k rest with
      | some r =>
        rw [hr] at h
        cases h
        exact List.mem_cons_of_mem _ (ih _ hr)
      | none =>
        rw [hr] at h
        by_cases hk : k2 = k
        · rw [if_pos hk] at h
          cases h
          subst hk
          exact List.mem_cons_self _ _
        · rw [if_neg hk] at h
          cases h

/-- When some pair carries the key and all pairs carrying it agree on
the value, `lastLookup` returns that value. -/
theorem lastLookup_eq_of {α : Type} (k : Json) (val : α) :
    ∀ (ps : List (Json × α)), (∃ p ∈ ps, p.1 = k) →
      (∀ p ∈ ps, p.1 = k → p.2 = val) → lastLookup k ps = some val := by
  intro ps
  induction ps with
  | nil => rintro ⟨p, hp, _⟩ _; cases hp
  | cons p rest ih =>
    rintro ⟨q, hq, hqk⟩ hall
    cases p with
    | mk k2 v =>
      simp only [lastLookup]
      cases hr : lastLookup k rest with
      | some r =>
        have hmem := lastLookup_some_mem k rest r hr
        have hrv : r = val := hall (k, r) (List.mem_cons_of_mem _ hmem) rfl
        simp [hrv]
      | none =>
        have hnone := (lastLookup_eq_none k rest).mp hr
        rcases List.mem_cons.mp hq with rfl | hq
        · have hk2 : k2 = k := hqk
          have hv : v = val := hall (k2, v) (List.mem_cons_self _ _) hqk
          simp [hk2, hv]
        · exact absurd hqk (hnone q hq)

/-- A successful `vertexEntry` decomposes into its source steps. -/
theorem vertexEntry_ok_inv (vertex label : Json) (props : List PropEntry)
    (h : vertexEntry vertex = Except.ok (label, props)) :
    vertex.getItem "label" = Except.ok label ∧
    ∃ attrsJ attrs, vertex.getDefault "attributes" (Json.arr []) = Except.ok attrsJ ∧
      attrsJ.toIter = Except.ok attrs ∧ mapE attrEntry attrs = Except.ok props := by
  simp only [vertexEntry] at h
  split at h
  · exact Except.noConfusion h
  · rename_i l h1
    split at h
    · exact Except.noConfusion h
    · rename_i attrsJ h2
      split at h
      · exact Except.noConfusion h
      · rename_i attrs h3
        split at h
        · exact Except.noConfusion h
        · rename_i ps h4
          cases h
          exact ⟨h1, attrsJ, attrs, h2, h3, h4⟩

/-- A `vertexEntry` run built from its successful source steps. -/
theorem vertexEntry_ok_of (vertex label attrsJ : Json) (attrs : List Json)
    (props : List PropEntry)
    (h1 : vertex.getItem "label" = Except.ok label)
    (h2 : vertex.getDefault "attributes" (Json.arr []) = Except.ok attrsJ)
    (h3 : attrsJ.toIter = Except.ok attrs)
    (h4 : mapE attrEntry attrs = Except.ok props) :
    vertexEntry vertex = Except.ok (label, props) := by
  simp [vertexEntry, h1, h2, h3, h4]

/-- A successful, edge-keeping `edgePropEntry` decomposes into its
source steps: the truthiness filter passed and the label and attribute
steps succeeded. -/
theorem edgePropEntry_some_inv (edge label : Json) (props : List PropEntry)
    (h : edgePropEntry edge = Except.ok (some (label, props))) :
    edge.getItem "label" = Except.ok label ∧
    (∃ a, edge.getDefault "attributes" Json.null = Except.ok a ∧ truthy a = true) ∧
    ∃ attrsJ attrs, edge.getDefault "attributes" (Json.arr []) = Except.ok attrsJ ∧
      attrsJ.toIter = Except.ok attrs ∧ mapE attrEntry attrs = Except.ok props := by
  simp only [edgePropEntry] at h
  split at h
  · exact Except.noConfusion h
  · rename_i a h0
    split at h
    · rename_i ht
      split at h
      · exact Except.noConfusion h
      · rename_i l h1
        split at h
        · exact Except.noConfusion h
        · rename_i attrsJ h2
          split at h
          · exact Except.noConfusion h
          · rename_i attrs h3
            split at h
            · exact Except.noConfusion h
            · rename_i ps h4
              cases h
              exact ⟨h1, ⟨a, h0, ht⟩, attrsJ, attrs, h2, h3, h4⟩
    · simp at h

/-- An edge whose `attributes` read back falsy is dropped by the
`rel_props` comprehension's filter. -/
theorem edgePropEntry_none_of (edge a : Json)
    (h0 : edge.getDefault "attributes" Json.null = Except.ok a)
    (ht : truthy a = false) :
    edgePropEntry edge = Except.ok none := by
  simp [edgePropEntry, h0, ht]

/-- A successful `edgeRelEntry` decomposes into its source lookups. -/
theorem edgeRelEntry_ok_inv (edge : Json) (r : RelEntry)
    (h : edgeRelEntry edge = Except.ok r) :
    edge.getItem "from" = Except.ok r.start ∧
    edge.getItem "to" = Except.ok r.«end» ∧
    edge.getItem "label" = Except.ok r.type := by
  simp only [edgeRelEntry] at h
  split at h
  · exact Except.noConfusion h
  · rename_i f h1
    split at h
    · exact Except.noConfusion h
    · rename_i t h2
      split at h
      · exact Except.noConfusion h
      · rename_i l h3
        cases h
        exact ⟨h1, h2, h3⟩

/-- A successful run of the normalizer body decomposes into the source's
comprehensions: `node_props` is the dict built from the vertex pairs,
`rel_props` the dict built from the kept edge pairs, `relationships` the
list built from all edges. -/
theorem to_structured_dict_ok_inv (schema_dict : Json) (result : StructuredSchema)
    (h : _to_structured_schema_dict schema_dict = Except.ok result) :
    ∃ vlist elist nodePairs relPairsOpt rels,
      verticesOf schema_dict = Except.ok vlist ∧
      edgesOf schema_dict = Except.ok elist ∧
      mapE vertexEntry vlist = Except.ok nodePairs ∧
      mapE edgePropEntry elist = Except.ok relPairsOpt ∧
      mapE edgeRelEntry elist = Except.ok rels ∧
      result.node_props = pyDictOfList nodePairs ∧
      result.rel_props = pyDictOfList (relPairsOpt.filterMap id) ∧
      result.relationships = rels := by
  simp only [_to_structured_schema_dict] at h
  split at h
  · exact Except.noConfusion h
  · rename_i vertices h1
    split at h
    · exact Except.noConfusion h
    · rename_i vlist h2
      split at h
      · exact Except.noConfusion h
      · rename_i nodePairs h3
        split at h
        · exact Except.noConfusion h
        · rename_i edges h4
          split at h
          · exact Except.noConfusion h
          · rename_i elist h5
            split at h
            · exact Except.noConfusion h
            · rename_i relPairsOpt h6
              split at h
              · rename_i e h4b
                exact Except.noConfusion h4b
              · rename_i edges2 h4b
                cases h4b
                split at h
                · rename_i e h5b
                  rw [h5] at h5b
                  exact Except.noConfusion h5b
                · rename_i elist2 h5b
                  rw [h5] at h5b
                  cases h5b
                  split at h
                  · exact Except.noConfusion h
                  · rename_i rels h7
                    cases h
                    exact ⟨vlist, elist, nodePairs, relPairsOpt, rels,
                      by simp [verticesOf, h1, h2],
                      by simp [edgesOf, h4, h5],
                      h3, h6, h7, rfl, rfl, rfl⟩

/-- A successful run of `_to_structured_schema` decomposes into a
successful `json.loads` followed by a successful reshape. -/
theorem to_structured_ok_inv (schema_json_str : String) (result : StructuredSchema)
    (h : _to_structured_schema schema_json_str = Except.ok result) :
    ∃ schema_dict, json_loads schema_json_str = Except.ok schema_dict ∧
      _to_structured_schema_dict schema_dict = Except.ok result := by
  simp only [_to_structured_schema] at h
  split at h
  · exact Except.noConfusion h
  · rename_i schema_dict h1
    exact ⟨schema_dict, h1, h⟩

/-- An `edgePropEntry` that dropped its edge did so because the
truthiness filter rejected the edge's `attributes`. -/
theorem edgePropEntry_ok_none_inv (edge : Json)
    (h : edgePropEntry edge = Except.ok none) :
    ∃ a, edge.getDefault "attributes" Json.null = Except.ok a ∧ truthy a = false := by
  simp only [edgePropEntry] at h
  split at h
  · exact Except.noConfusion h
  · rename_i a h0
    split at h
    · rename_i ht
      split at h
      · exact Except.noConfusion h
      · split at h
        · exact Except.noConfusion h
        · split at h
          · exact Except.noConfusion h
          · split at h
            · exact Except.noConfusion h
            · simp at h
    · rename_i ht
      exact ⟨a, h0, Bool.eq_false_iff.mpr ht⟩

/-- A successfully constructed adapter caches the constructor-time fetch
and the requested language and credentials. -/
theorem init_ok_inv (query_language ip_address username password fetched_schema : String)
    (g : PuppyGraph) (calls : List NetworkCall)
    (h : PuppyGraph.init query_language ip_address username password true fetched_schema =
      (Except.ok g, calls)) :
    g._query_language = query_language ∧
    g._client = { config := { ip := ip_address, username := username, password := password } } ∧
    g._schema_json_str = fetched_schema := by
  simp only [PuppyGraph.init] at h
  split at h
  · rename_i hfalse
    exact Bool.noConfusion hfalse
  · split at h
    · simp at h
    · rw [Prod.mk.injEq] at h
      rcases h with ⟨hg, _⟩
      cases hg
      exact ⟨rfl, rfl, rfl⟩

/-! The claims. -/

/-- C1: constructing the adapter with a `query_language` outside
{"gremlin", "cypher"} always fails with the constructor's `ValueError`
(the spec's ValidationError) for every such string, and performs no
network interaction: the trace is empty, so no client is constructed and
no schema fetch occurs before the failure.  The external `puppygraph`
package is taken as importable (when it is not, Python fails earlier
with the `ImportError` the spec documents separately). -/
theorem C1_invalid_language_rejected
    (query_language ip_address username password fetched_schema : String)
    (h : query_language ∉ [_GREMLIN_STR, _CYPHER_STR]) :
    PuppyGraph.init query_language ip_address username password true fetched_schema =
      (Except.error (PyError.valueError
        ("Query language must be either " ++ _GREMLIN_STR ++ " or " ++ _CYPHER_STR ++ ".")),
       []) := by
  simp only [PuppyGraph.init]
  rw [if_neg (by simp), if_pos h]

/-- C1 witness: the rejection at the concrete language "sparql". -/
theorem C1_invalid_language_rejected_witness :
    ("sparql" ∉ [_GREMLIN_STR, _CYPHER_STR]) ∧
    PuppyGraph.init "sparql" "127.0.0.1" "puppygraph" "puppygraph123" true "ignored" =
      (Except.error (PyError.valueError
        ("Query language must be either " ++ _GREMLIN_STR ++ " or " ++ _CYPHER_STR ++ ".")),
       []) :=
  ⟨by decide,
   C1_invalid_language_rejected "sparql" "127.0.0.1" "puppygraph" "puppygraph123" "ignored"
     (by decide)⟩

/-- C2: for every adapter state, query text and params, `query` routes
to the Gremlin-style call with the query text only when the configured
language is "gremlin" (params ignored), to the Cypher-style call with
params forwarded exactly when it is "cypher", and fails with the
`ValueError` (the spec's ValidationError) for any other configured
value; omitting `params` defaults it to the empty mapping. -/
theorem C2_query_routing (g : PuppyGraph) (q : String) (params : List (String × Json)) :
    (g._query_language = _GREMLIN_STR →
      g.query q params = Except.ok (ClientCall.gremlin_query q)) ∧
    (g._query_language = _CYPHER_STR →
      g.query q params = Except.ok (ClientCall.cypher_query q params)) ∧
    (g._query_language ∉ [_GREMLIN_STR, _CYPHER_STR] →
      g.query q params = Except.error (PyError.valueError
        ("Query language must be either " ++ _GREMLIN_STR ++ " or " ++ _CYPHER_STR ++ "."))) ∧
    g.queryDefaultParams q = g.query q [] := by
  refine ⟨?_, ?_, ?_, rfl⟩
  · intro h
    simp only [PuppyGraph.query]
    rw [if_pos h]
  · intro h
    have hng : ¬ g._query_language = _GREMLIN_STR := by
      rw [h]
      decide
    simp only [PuppyGraph.query]
    rw [if_neg hng, if_pos h]
  · intro h
    simp only [List.mem_cons, List.mem_singleton, not_or] at h
    simp only [PuppyGraph.query]
    rw [if_neg h.1, if_neg h.2.1]

/-- C2 witness: the three routes at concrete adapter states, and the
params default. -/
theorem C2_query_routing_witness :
    PuppyGraph.query
      { _query_language := "gremlin",
        _client := { config := { ip := "h", username := "u", password := "p" } },
        _schema_json_str := "s" } "g.V()" [("k", Json.null)] =
      Except.ok (ClientCall.gremlin_query "g.V()") ∧
    PuppyGraph.query
      { _query_language := "cypher",
        _client := { config := { ip := "h", username := "u", password := "p" } },
        _schema_json_str := "s" } "MATCH (n) RETURN n" [("k", Json.null)] =
      Except.ok (ClientCall.cypher_query "MATCH (n) RETURN n" [("k", Json.null)]) ∧
    PuppyGraph.query
      { _query_language := "sql",
        _client := { config := { ip := "h", username := "u", password := "p" } },
        _schema_json_str := "s" } "SELECT 1" [] =
      Except.error (PyError.valueError
        ("Query language must be either " ++ _GREMLIN_STR ++ " or " ++ _CYPHER_STR ++ ".")) ∧
    PuppyGraph.queryDefaultParams
      { _query_language := "gremlin",
        _client := { config := { ip := "h", username := "u", password := "p" } },
        _schema_json_str := "s" } "g.E()" =
      PuppyGraph.query
        { _query_language := "gremlin",
          _client := { config := { ip := "h", username := "u", password := "p" } },
          _schema_json_str := "s" } "g.E()" [] :=
  ⟨(C2_query_routing _ "g.V()" [("k", Json.null)]).1 rfl,
   (C2_query_routing _ "MATCH (n) RETURN n" [("k", Json.null)]).2.1 rfl,
   (C2_query_routing _ "SELECT 1" []).2.2.1 (by decide),
   (C2_query_routing _ "g.E()" []).2.2.2⟩

set_option maxRecDepth 100000 in
/-- C3: the normalizer on the exact input string
`{"vertices":[{"label":"Person","attributes":[{"name":"age","type":"int"}]}],"edges":[{"label":"KNOWS","from":"Person","to":"Person","attributes":[]}]}`
returns exactly node_props = {"Person": [{"property": "age", "type":
"int"}]}, rel_props = {} (KNOWS omitted, empty attributes), and
relationships = [{"start": "Person", "end": "Person", "type":
"KNOWS"}]. -/
theorem C3_normalizer_round_trip :
    _to_structured_schema
      "\x7b\"vertices\":[\x7b\"label\":\"Person\",\"attributes\":[\x7b\"name\":\"age\",\"type\":\"int\"\x7d]\x7d],\"edges\":[\x7b\"label\":\"KNOWS\",\"from\":\"Person\",\"to\":\"Person\",\"attributes\":[]\x7d]\x7d" =
      Except.ok
        { node_props :=
            [(Json.str "Person", [{ property := Json.str "age", type := Json.str "int" }])],
          rel_props := [],
          relationships :=
            [{ start := Json.str "Person", «end» := Json.str "Person",
               type := Json.str "KNOWS" }] } := by
  rfl

/-- C7: `add_graph_documents` fails with `NotImplementedError` (the
spec's UnsupportedOperationError) for every adapter state, every
document list (including the empty list) and either `include_source`
value, carrying the message that directs the caller to the backing
relational database, and leaves the adapter state unchanged. -/
theorem C7_add_graph_documents_unsupported (g : PuppyGraph)
    (graph_documents : List GraphDocument) (include_source : Bool) :
    g.add_graph_documents graph_documents include_source =
      (Except.error (PyError.notImplementedError
        "Please add the node or relationships directly in the corresponding relational database."),
       g) :=
  rfl

/-- C6: on a malformed cached schema string — not JSON at all, or a JSON
object missing the "vertices" or "edges" key — `get_structured_schema`
fails (with the `JSONDecodeError`/`KeyError` that the spec groups as
SchemaParseError) and yields no partial result, while `get_schema` is
unaffected and still returns the raw cached string unchanged. -/
theorem C6_malformed_schema (g : PuppyGraph) :
    (json_loads g._schema_json_str = Except.error PyError.jsonDecodeError →
      g.get_structured_schema = Except.error PyError.jsonDecodeError) ∧
    (∀ kvs, json_loads g._schema_json_str = Except.ok (Json.obj kvs) →
      objLookup "vertices" kvs = none →
      g.get_structured_schema = Except.error (PyError.keyError "vertices")) ∧
    (∀ kvs, json_loads g._schema_json_str = Except.ok (Json.obj kvs) →
      objLookup "edges" kvs = none →
      ∃ e, g.get_structured_schema = Except.error e) ∧
    g.get_schema = g._schema_json_str := by
  refine ⟨?_, ?_, ?_, rfl⟩
  · intro h
    simp [PuppyGraph.get_structured_schema, _to_structured_schema, h]
  · intro kvs hp hv
    simp [PuppyGraph.get_structured_schema, _to_structured_schema, hp,
      _to_structured_schema_dict, Json.getItem, hv]
  · intro kvs hp he
    cases hres : g.get_structured_schema with
    | error e => exact ⟨e, rfl⟩
    | ok r =>
      exfalso
      rcases to_structured_ok_inv g._schema_json_str r hres with ⟨sd, hsd, hdict⟩
      rw [hp] at hsd
      cases hsd
      rcases to_structured_dict_ok_inv _ _ hdict with
        ⟨vl, el, np, rp, rl, hvv, hedges, _, _, _, _, _, _⟩
      simp [edgesOf, Json.getItem, he] at hedges

/-- C6 witness: the malformed inputs `"{}"` (valid JSON, missing keys)
and `"not json"` at concrete adapter states, and `get_schema` returning
the raw malformed string. -/
theorem C6_malformed_schema_witness :
    PuppyGraph.get_structured_schema
      { _query_language := "gremlin",
        _client := { config := { ip := "h", username := "u", password := "p" } },
        _schema_json_str := "\x7b\x7d" } = Except.error (PyError.keyError "vertices") ∧
    PuppyGraph.get_schema
      { _query_language := "gremlin",
        _client := { config := { ip := "h", username := "u", password := "p" } },
        _schema_json_str := "\x7b\x7d" } = "\x7b\x7d" ∧
    PuppyGraph.get_structured_schema
      { _query_language := "gremlin",
        _client := { config := { ip := "h", username := "u", password := "p" } },
        _schema_json_str := "not json" } = Except.error PyError.jsonDecodeError :=
  ⟨(C6_malformed_schema _).2.1 [] (by rfl) rfl,
   (C6_malformed_schema
      { _query_language := "gremlin",
        _client := { config := { ip := "h", username := "u", password := "p" } },
        _schema_json_str := "\x7b\x7d" }).2.2.2,
   (C6_malformed_schema _).1 (by rfl)⟩

/-- C8: `get_schema` returns exactly the cached schema string — the one
stored by the most recent fetch, whether at construction (last conjunct)
or by the latest `refresh_schema` — and performs no fetch itself (it is
a pure projection of the state); `refresh_schema` replaces only the
cached schema string, leaving the query language and client handle
unchanged, and returns nothing (its Lean counterpart returns only the
updated state, matching Python's `None` return). -/
theorem C8_schema_caching (g : PuppyGraph) (fetched : String) :
    g.get_schema = g._schema_json_str ∧
    (g.refresh_schema fetched).get_schema = fetched ∧
    (g.refresh_schema fetched)._query_language = g._query_language ∧
    (g.refresh_schema fetched)._client = g._client ∧
    (∀ (ql ip u p fs : String) (g2 : PuppyGraph) (calls : List NetworkCall),
      PuppyGraph.init ql ip u p true fs = (Except.ok g2, calls) →
      g2.get_schema = fs) := by
  refine ⟨rfl, rfl, rfl, rfl, ?_⟩
  intro ql ip u p fs g2 calls h
  exact (init_ok_inv ql ip u p fs g2 calls h).2.2

/-- C8 witness: the cache behavior at a concrete state, refresh value
and construction. -/
theorem C8_schema_caching_witness :
    PuppyGraph.get_schema
      { _query_language := "gremlin",
        _client := { config := { ip := "h", username := "u", password := "p" } },
        _schema_json_str := "old" } = "old" ∧
    (PuppyGraph.refresh_schema
      { _query_language := "gremlin",
        _client := { config := { ip := "h", username := "u", password := "p" } },
        _schema_json_str := "old" } "new").get_schema = "new" ∧
    (PuppyGraph.refresh_schema
      { _query_language := "gremlin",
        _client := { config := { ip := "h", username := "u", password := "p" } },
        _schema_json_str := "old" } "new")._query_language = "gremlin" ∧
    (PuppyGraph.refresh_schema
      { _query_language := "gremlin",
        _client := { config := { ip := "h", username := "u", password := "p" } },
        _schema_json_str := "old" } "new")._client =
      { config := { ip := "h", username := "u", password := "p" } } ∧
    PuppyGraph.get_schema
      { _query_language := "gremlin",
        _client := { config := { ip := "127.0.0.1", username := "u", password := "p" } },
        _schema_json_str := "fetched0" } = "fetched0" :=
  have h := C8_schema_caching
    { _query_language := "gremlin",
      _client := { config := { ip := "h", username := "u", password := "p" } },
      _schema_json_str := "old" } "new"
  ⟨h.1, h.2.1, h.2.2.1, h.2.2.2.1,
   h.2.2.2.2 "gremlin" "127.0.0.1" "u" "p" "fetched0"
     { _query_language := "gremlin",
       _client := { config := { ip := "127.0.0.1", username := "u", password := "p" } },
       _schema_json_str := "fetched0" } [NetworkCall.constructClient
         { ip := "127.0.0.1", username := "u", password := "p" }, NetworkCall.get_schema]
     (by rfl)⟩

/-- C5: for well-formed schema input (vertex labels naming their vertex
uniquely), a vertex whose "attributes" key is missing — in which case
the source's `.get("attributes", [])` yields the empty list — or whose
attributes array is empty produces `node_props[label] = []`: the label
key is present, mapped to the empty property list. -/
theorem C5_vertex_empty_attributes (schema_json_str : String) (schema_dict : Json)
    (result : StructuredSchema) (vlist : List Json) (v label : Json)
    (hparse : json_loads schema_json_str = Except.ok schema_dict)
    (hok : _to_structured_schema schema_json_str = Except.ok result)
    (hv : verticesOf schema_dict = Except.ok vlist)
    (huniq : ∀ v1 ∈ vlist, ∀ v2 ∈ vlist, ∀ l, v1.getItem "label" = Except.ok l →
      v2.getItem "label" = Except.ok l → v1 = v2)
    (hmem : v ∈ vlist)
    (hlabel : v.getItem "label" = Except.ok label)
    (hattrs : v.getDefault "attributes" (Json.arr []) = Except.ok (Json.arr [])) :
    pyLookup label result.node_props = some [] := by
  rcases to_structured_ok_inv schema_json_str result hok with ⟨sd, hsd, hdict⟩
  rw [hparse] at hsd
  cases hsd
  rcases to_structured_dict_ok_inv _ _ hdict with
    ⟨vl, el, np, rp, rl, hvv, hed, hmapv, _, _, hnode, _, _⟩
  rw [hv] at hvv
  cases hvv
  have hF := (mapE_ok_forall₂ vertexEntry vlist np).mp hmapv
  have hvE : vertexEntry v = Except.ok (label, []) :=
    vertexEntry_ok_of v label (Json.arr []) [] [] hlabel hattrs rfl rfl
  rcases forall₂_mem_left hF v hmem with ⟨y, hy, hvy⟩
  have hylab : y = (label, []) := by
    rw [hvE] at hvy
    exact (Except.ok.injEq _ _).mp hvy.symm
  rw [hnode, pyLookup_pyDictOfList]
  refine lastLookup_eq_of label [] np ⟨y, hy, by rw [hylab]⟩ ?_
  intro p hp hpk
  rcases forall₂_mem_right hF p hp with ⟨v2, hv2, hv2E⟩
  rcases p with ⟨pk, pv⟩
  rcases vertexEntry_ok_inv v2 pk pv hv2E with ⟨hl2, _⟩
  have hv2v : v2 = v := by
    refine huniq v2 hv2 v hmem label ?_ hlabel
    have hpk2 : pk = label := hpk
    rw [← hpk2]
    exact hl2
  rw [hv2v, hvE] at hv2E
  have := (Except.ok.injEq _ _).mp hv2E
  simpa using congrArg Prod.snd this

/-- C5 witness: the schema `{"vertices":[{"label":"A"}],"edges":[]}`,
whose only vertex lacks the "attributes" key, yields
`node_props = {"A": []}`. -/
theorem C5_vertex_empty_attributes_witness :
    pyLookup (Json.str "A")
      (StructuredSchema.node_props
        { node_props := [(Json.str "A", [])], rel_props := [], relationships := [] }) =
      some [] :=
  C5_vertex_empty_attributes
    "\x7b\"vertices\":[\x7b\"label\":\"A\"\x7d],\"edges\":[]\x7d"
    (Json.obj [("vertices", Json.arr [Json.obj [("label", Json.str "A")]]),
               ("edges", Json.arr [])])
    { node_props := [(Json.str "A", [])], rel_props := [], relationships := [] }
    [Json.obj [("label", Json.str "A")]] (Json.obj [("label", Json.str "A")]) (Json.str "A")
    (by rfl) (by rfl) (by rfl)
    (by
      intro v1 h1 v2 h2 l e1 e2
      rw [List.eq_of_mem_singleton h1, List.eq_of_mem_singleton h2])
    (by simp) (by rfl) (by rfl)

/-- C9: for every schema input the normalizer accepts, each property
list stored in `node_props` (resp. `rel_props`) is the pointwise,
order-preserving image of the corresponding source "attributes" array:
entry `i` of the stored list is built from entry `i` of the array, so
insertion order is preserved and nothing is sorted. -/
theorem C9_property_order (schema_json_str : String) (schema_dict : Json)
    (result : StructuredSchema) (vlist elist : List Json)
    (hparse : json_loads schema_json_str = Except.ok schema_dict)
    (hok : _to_structured_schema schema_json_str = Except.ok result)
    (hv : verticesOf schema_dict = Except.ok vlist)
    (hed : edgesOf schema_dict = Except.ok elist) :
    (∀ label ps, pyLookup label result.node_props = some ps →
      ∃ v ∈ vlist, ∃ attrsJ attrs, v.getItem "label" = Except.ok label ∧
        v.getDefault "attributes" (Json.arr []) = Except.ok attrsJ ∧
        attrsJ.toIter = Except.ok attrs ∧
        List.Forall₂ (fun attr p => attrEntry attr = Except.ok p) attrs ps) ∧
    (∀ label ps, pyLookup label result.rel_props = some ps →
      ∃ e ∈ elist, ∃ attrsJ attrs, e.getItem "label" = Except.ok label ∧
        e.getDefault "attributes" (Json.arr []) = Except.ok attrsJ ∧
        attrsJ.toIter = Except.ok attrs ∧
        List.Forall₂ (fun attr p => attrEntry attr = Except.ok p) attrs ps) := by
  rcases to_structured_ok_inv schema_json_str result hok with ⟨sd, hsd, hdict⟩
  rw [hparse] at hsd
  cases hsd
  rcases to_structured_dict_ok_inv _ _ hdict with
    ⟨vl, el, np, rp, rl, hvv, hedv, hmapv, hmapp, hmapr, hnode, hrelp, hrels⟩
  rw [hv] at hvv
  cases hvv
  rw [hed] at hedv
  cases hedv
  constructor
  · intro label ps hlook
    rw [hnode, pyLookup_pyDictOfList] at hlook
    have hmem := lastLookup_some_mem label np ps hlook
    rcases forall₂_mem_right ((mapE_ok_forall₂ vertexEntry vlist np).mp hmapv) _ hmem with
      ⟨v, hvmem, hvE⟩
    rcases vertexEntry_ok_inv v label ps hvE with ⟨hl, attrsJ, attrs, h2, h3, h4⟩
    exact ⟨v, hvmem, attrsJ, attrs, hl, h2, h3, (mapE_ok_forall₂ attrEntry attrs ps).mp h4⟩
  · intro label ps hlook
    rw [hrelp, pyLookup_pyDictOfList] at hlook
    have hmem := lastLookup_some_mem label _ ps hlook
    have hsome : some (label, ps) ∈ rp := by
      rcases List.mem_filterMap.mp hmem with ⟨o, ho, hoid⟩
      have ho2 : o = some (label, ps) := hoid
      rw [ho2] at ho
      exact ho
    rcases forall₂_mem_right ((mapE_ok_forall₂ edgePropEntry elist rp).mp hmapp) _ hsome with
      ⟨e, hemem, heE⟩
    rcases edgePropEntry_some_inv e label ps heE with ⟨hl, _, attrsJ, attrs, h2, h3, h4⟩
    exact ⟨e, hemem, attrsJ, attrs, hl, h2, h3, (mapE_ok_forall₂ attrEntry attrs ps).mp h4⟩

set_option maxRecDepth 400000 in
/-- C9 witness: a vertex with the two-element attribute array
`[x: int, y: str]` and an edge with `[z: long]`, whose stored property
lists follow the source order. -/
theorem C9_property_order_witness :
    (∀ label ps,
      pyLookup label
        (StructuredSchema.node_props
          { node_props :=
              [(Json.str "B",
                [{ property := Json.str "x", type := Json.str "int" },
                 { property := Json.str "y", type := Json.str "str" }])],
            rel_props := [(Json.str "E", [{ property := Json.str "z", type := Json.str "long" }])],
            relationships :=
              [{ start := Json.str "B", «end» := Json.str "B", type := Json.str "E" }] }) =
        some ps →
      ∃ v ∈ [Json.obj [("label", Json.str "B"),
              ("attributes",
               Json.arr [Json.obj [("name", Json.str "x"), ("type", Json.str "int")],
                         Json.obj [("name", Json.str "y"), ("type", Json.str "str")]])]],
        ∃ attrsJ attrs, v.getItem "label" = Except.ok label ∧
          v.getDefault "attributes" (Json.arr []) = Except.ok attrsJ ∧
          attrsJ.toIter = Except.ok attrs ∧
          List.Forall₂ (fun attr p => attrEntry attr = Except.ok p) attrs ps) ∧
    (∀ label ps,
      pyLookup label
        (StructuredSchema.rel_props
          { node_props :=
              [(Json.str "B",
                [{ property := Json.str "x", type := Json.str "int" },
                 { property := Json.str "y", type := Json.str "str" }])],
            rel_props := [(Json.str "E", [{ property := Json.str "z", type := Json.str "long" }])],
            relationships :=
              [{ start := Json.str "B", «end» := Json.str "B", type := Json.str "E" }] }) =
        some ps →
      ∃ e ∈ [Json.obj [("label", Json.str "E"), ("from", Json.str "B"), ("to", Json.str "B"),
              ("attributes",
               Json.arr [Json.obj [("name", Json.str "z"), ("type", Json.str "long")]])]],
        ∃ attrsJ attrs, e.getItem "label" = Except.ok label ∧
          e.getDefault "attributes" (Json.arr []) = Except.ok attrsJ ∧
          attrsJ.toIter = Except.ok attrs ∧
          List.Forall₂ (fun attr p => attrEntry attr = Except.ok p) attrs ps) :=
  C9_property_order
    "\x7b\"vertices\":[\x7b\"label\":\"B\",\"attributes\":[\x7b\"name\":\"x\",\"type\":\"int\"\x7d,\x7b\"name\":\"y\",\"type\":\"str\"\x7d]\x7d],\"edges\":[\x7b\"label\":\"E\",\"from\":\"B\",\"to\":\"B\",\"attributes\":[\x7b\"name\":\"z\",\"type\":\"long\"\x7d]\x7d]\x7d"
    (Json.obj
      [("vertices",
        Json.arr [Json.obj [("label", Json.str "B"),
          ("attributes",
           Json.arr [Json.obj [("name", Json.str "x"), ("type", Json.str "int")],
                     Json.obj [("name", Json.str "y"), ("type", Json.str "str")]])]]),
       ("edges",
        Json.arr [Json.obj [("label", Json.str "E"), ("from", Json.str "B"),
          ("to", Json.str "B"),
          ("attributes",
           Json.arr [Json.obj [("name", Json.str "z"), ("type", Json.str "long")]])]])])
    { node_props :=
        [(Json.str "B",
          [{ property := Json.str "x", type := Json.str "int" },
           { property := Json.str "y", type := Json.str "str" }])],
      rel_props := [(Json.str "E", [{ property := Json.str "z", type := Json.str "long" }])],
      relationships :=
        [{ start := Json.str "B", «end» := Json.str "B", type := Json.str "E" }] }
    [Json.obj [("label", Json.str "B"),
      ("attributes",
       Json.arr [Json.obj [("name", Json.str "x"), ("type", Json.str "int")],
                 Json.obj [("name", Json.str "y"), ("type", Json.str "str")]])]]
    [Json.obj [("label", Json.str "E"), ("from", Json.str "B"), ("to", Json.str "B"),
      ("attributes",
       Json.arr [Json.obj [("name", Json.str "z"), ("type", Json.str "long")]])]]
    (by rfl) (by rfl) (by rfl) (by rfl)

/-- C10: when several vertices share a label, `node_props` keeps exactly
one entry for that label — the attribute list of the LAST such vertex in
the "vertices" array; the same last-wins rule holds in `rel_props`
among the edges that contribute to it (those whose attributes pass the
filter); `relationships` still keeps one entry per edge occurrence,
duplicates included (it is pointwise related to the full edge list). -/
theorem C10_duplicate_labels_last_wins (schema_json_str : String) (schema_dict : Json)
    (result : StructuredSchema) (vlist elist : List Json)
    (hparse : json_loads schema_json_str = Except.ok schema_dict)
    (hok : _to_structured_schema schema_json_str = Except.ok result)
    (hv : verticesOf schema_dict = Except.ok vlist)
    (hed : edgesOf schema_dict = Except.ok elist) :
    (∀ pre v post label props, vlist = pre ++ v :: post →
      vertexEntry v = Except.ok (label, props) →
      (∀ v2 ∈ post, ∀ l2 p2, vertexEntry v2 = Except.ok (l2, p2) → l2 ≠ label) →
      pyLookup label result.node_props = some props) ∧
    (∀ pre e post label props, elist = pre ++ e :: post →
      edgePropEntry e = Except.ok (some (label, props)) →
      (∀ e2 ∈ post, ∀ l2 p2, edgePropEntry e2 = Except.ok (some (l2, p2)) → l2 ≠ label) →
      pyLookup label result.rel_props = some props) ∧
    List.Forall₂ (fun e r => edgeRelEntry e = Except.ok r) elist result.relationships := by
  rcases to_structured_ok_inv schema_json_str result hok with ⟨sd, hsd, hdict⟩
  rw [hparse] at hsd
  cases hsd
  rcases to_structured_dict_ok_inv _ _ hdict with
    ⟨vl, el, np, rp, rl, hvv, hedv, hmapv, hmapp, hmapr, hnode, hrelp, hrels⟩
  rw [hv] at hvv
  cases hvv
  rw [hed] at hedv
  cases hedv
  refine ⟨?_, ?_, by rw [hrels]; exact (mapE_ok_forall₂ edgeRelEntry elist rl).mp hmapr⟩
  · intro pre v post label props hsplit hvE hlast
    subst hsplit
    have hF := (mapE_ok_forall₂ vertexEntry (pre ++ v :: post) np).mp hmapv
    rcases forall₂_append_inv pre (v :: post) hF with ⟨np1, np2, hnpeq, hF1, hF2⟩
    cases hF2 with
    | cons hvy hFpost =>
      rename_i y np3
      have hy : y = (label, props) := by
        rw [hvE] at hvy
        exact ((Except.ok.injEq _ _).mp hvy).symm
      subst hy
      have hnone : lastLookup label np3 = none := by
        refine (lastLookup_eq_none label np3).mpr ?_
        intro q hq
        rcases forall₂_mem_right hFpost q hq with ⟨v2, hv2, hv2E⟩
        rcases q with ⟨qk, qv⟩
        exact hlast v2 hv2 qk qv hv2E
      rw [hnode, pyLookup_pyDictOfList, hnpeq, lastLookup_append]
      simp [lastLookup, hnone]
  · intro pre e post label props hsplit heE hlast
    subst hsplit
    have hF := (mapE_ok_forall₂ edgePropEntry (pre ++ e :: post) rp).mp hmapp
    rcases forall₂_append_inv pre (e :: post) hF with ⟨rp1, rp2, hrpeq, hF1, hF2⟩
    cases hF2 with
    | cons hey hFpost =>
      rename_i o rp3
      have ho : o = some (label, props) := by
        rw [heE] at hey
        exact ((Except.ok.injEq _ _).mp hey).symm
      subst ho
      have hnone : lastLookup label (List.filterMap id rp3) = none := by
        refine (lastLookup_eq_none label _).mpr ?_
        intro q hq
        rcases List.mem_filterMap.mp hq with ⟨o2, ho2, ho2id⟩
        have ho2some : o2 = some q := ho2id
        rw [ho2some] at ho2
        rcases forall₂_mem_right hFpost _ ho2 with ⟨e2, he2, he2E⟩
        rcases q with ⟨qk, qv⟩
        exact hlast e2 he2 qk qv he2E
      rw [hrelp, pyLookup_pyDictOfList, hrpeq, List.filterMap_append]
      rw [lastLookup_append]
      simp only [List.filterMap_cons]
      simp [lastLookup, hnone]

set_option maxRecDepth 400000 in
/-- C10 witness: two vertices labelled "D" (first with an attribute,
second without) yield `node_props["D"] = []`, and two edges labelled "F"
yield `rel_props["F"]` equal to the second edge's property list, while
`relationships` keeps both edge occurrences. -/
theorem C10_duplicate_labels_last_wins_witness :
    pyLookup (Json.str "D")
      (StructuredSchema.node_props
        { node_props := [(Json.str "D", [])],
          rel_props := [(Json.str "F", [{ property := Json.str "q", type := Json.str "str" }])],
          relationships :=
            [{ start := Json.str "D", «end» := Json.str "D", type := Json.str "F" },
             { start := Json.str "D", «end» := Json.str "D", type := Json.str "F" }] }) =
      some [] ∧
    pyLookup (Json.str "F")
      (StructuredSchema.rel_props
        { node_props := [(Json.str "D", [])],
          rel_props := [(Json.str "F", [{ property := Json.str "q", type := Json.str "str" }])],
          relationships :=
            [{ start := Json.str "D", «end» := Json.str "D", type := Json.str "F" },
             { start := Json.str "D", «end» := Json.str "D", type := Json.str "F" }] }) =
      some [{ property := Json.str "q", type := Json.str "str" }] ∧
    (StructuredSchema.relationships
        { node_props := [(Json.str "D", [])],
          rel_props := [(Json.str "F", [{ property := Json.str "q", type := Json.str "str" }])],
          relationships :=
            [{ start := Json.str "D", «end» := Json.str "D", type := Json.str "F" },
             { start := Json.str "D", «end» := Json.str "D", type := Json.str "F" }] }).length =
      2 :=
  have h := C10_duplicate_labels_last_wins
    "\x7b\"vertices\":[\x7b\"label\":\"D\",\"attributes\":[\x7b\"name\":\"a\",\"type\":\"int\"\x7d]\x7d,\x7b\"label\":\"D\"\x7d],\"edges\":[\x7b\"label\":\"F\",\"from\":\"D\",\"to\":\"D\",\"attributes\":[\x7b\"name\":\"p\",\"type\":\"int\"\x7d]\x7d,\x7b\"label\":\"F\",\"from\":\"D\",\"to\":\"D\",\"attributes\":[\x7b\"name\":\"q\",\"type\":\"str\"\x7d]\x7d]\x7d"
    (Json.obj
      [("vertices",
        Json.arr
          [Json.obj [("label", Json.str "D"),
            ("attributes",
             Json.arr [Json.obj [("name", Json.str "a"), ("type", Json.str "int")]])],
           Json.obj [("label", Json.str "D")]]),
       ("edges",
        Json.arr
          [Json.obj [("label", Json.str "F"), ("from", Json.str "D"), ("to", Json.str "D"),
            ("attributes",
             Json.arr [Json.obj [("name", Json.str "p"), ("type", Json.str "int")]])],
           Json.obj [("label", Json.str "F"), ("from", Json.str "D"), ("to", Json.str "D"),
            ("attributes",
             Json.arr [Json.obj [("name", Json.str "q"), ("type", Json.str "str")]])]])])
    { node_props := [(Json.str "D", [])],
      rel_props := [(Json.str "F", [{ property := Json.str "q", type := Json.str "str" }])],
      relationships :=
        [{ start := Json.str "D", «end» := Json.str "D", type := Json.str "F" },
         { start := Json.str "D", «end» := Json.str "D", type := Json.str "F" }] }
    [Json.obj [("label", Json.str "D"),
      ("attributes", Json.arr [Json.obj [("name", Json.str "a"), ("type", Json.str "int")]])],
     Json.obj [("label", Json.str "D")]]
    [Json.obj [("label", Json.str "F"), ("from", Json.str "D"), ("to", Json.str "D"),
      ("attributes", Json.arr [Json.obj [("name", Json.str "p"), ("type", Json.str "int")]])],
     Json.obj [("label", Json.str "F"), ("from", Json.str "D"), ("to", Json.str "D"),
      ("attributes", Json.arr [Json.obj [("name", Json.str "q"), ("type", Json.str "str")]])]]
    (by rfl) (by rfl) (by rfl) (by rfl)
  ⟨h.1
     [Json.obj [("label", Json.str "D"),
       ("attributes", Json.arr [Json.obj [("name", Json.str "a"), ("type", Json.str "int")]])]]
     (Json.obj [("label", Json.str "D")]) [] (Json.str "D") []
     rfl rfl (by intro v2 h2; cases h2),
   h.2.1
     [Json.obj [("label", Json.str "F"), ("from", Json.str "D"), ("to", Json.str "D"),
       ("attributes", Json.arr [Json.obj [("name", Json.str "p"), ("type", Json.str "int")]])]]
     (Json.obj [("label", Json.str "F"), ("from", Json.str "D"), ("to", Json.str "D"),
       ("attributes", Json.arr [Json.obj [("name", Json.str "q"), ("type", Json.str "str")]])])
     [] (Json.str "F") [{ property := Json.str "q", type := Json.str "str" }]
     rfl rfl (by intro e2 h2; cases h2),
   rfl⟩

/-- C4: for well-formed schema input (edge labels naming their edge
uniquely), an edge whose "attributes" are missing (the source's `.get`
returns `None`) or an empty array is omitted entirely from `rel_props` —
its label is not a key at all; an edge declaring at least one attribute
does put its label in `rel_props`; and `relationships` is pointwise
related to the full edge list — one `{start, end, type}` entry per edge
unconditionally — so every edge's label appears as the `type` of some
relationship entry. -/
theorem C4_edge_attribute_asymmetry (schema_json_str : String) (schema_dict : Json)
    (result : StructuredSchema) (elist : List Json) (e label a : Json)
    (hparse : json_loads schema_json_str = Except.ok schema_dict)
    (hok : _to_structured_schema schema_json_str = Except.ok result)
    (hed : edgesOf schema_dict = Except.ok elist)
    (huniq : ∀ e1 ∈ elist, ∀ e2 ∈ elist, ∀ l, e1.getItem "label" = Except.ok l →
      e2.getItem "label" = Except.ok l → e1 = e2)
    (hmem : e ∈ elist)
    (hlabel : e.getItem "label" = Except.ok label)
    (hattr : e.getDefault "attributes" Json.null = Except.ok a) :
    ((a = Json.null ∨ a = Json.arr []) → pyLookup label result.rel_props = none) ∧
    ((∃ attrs, a = Json.arr attrs ∧ attrs ≠ []) → pyLookup label result.rel_props ≠ none) ∧
    List.Forall₂ (fun e2 r => edgeRelEntry e2 = Except.ok r) elist result.relationships ∧
    (∃ r ∈ result.relationships, r.type = label) := by
  rcases to_structured_ok_inv schema_json_str result hok with ⟨sd, hsd, hdict⟩
  rw [hparse] at hsd
  cases hsd
  rcases to_structured_dict_ok_inv _ _ hdict with
    ⟨vl, el, np, rp, rl, hvv, hedv, hmapv, hmapp, hmapr, hnode, hrelp, hrels⟩
  rw [hed] at hedv
  cases hedv
  have hFp := (mapE_ok_forall₂ edgePropEntry elist rp).mp hmapp
  have hFr := (mapE_ok_forall₂ edgeRelEntry elist rl).mp hmapr
  refine ⟨?_, ?_, by rw [hrels]; exact hFr, ?_⟩
  · intro hfalsy
    have htr : truthy a = false := by
      rcases hfalsy with rfl | rfl <;> rfl
    rw [hrelp, pyLookup_pyDictOfList]
    refine (lastLookup_eq_none label _).mpr ?_
    intro q hq
    intro hqk
    rcases List.mem_filterMap.mp hq with ⟨o, ho, hoid⟩
    have ho2 : o = some q := hoid
    rw [ho2] at ho
    rcases forall₂_mem_right hFp _ ho with ⟨e2, he2, he2E⟩
    rcases q with ⟨qk, qv⟩
    rcases edgePropEntry_some_inv e2 qk qv he2E with ⟨hl2, ⟨a2, ha2, hta2⟩, _⟩
    have he2e : e2 = e := by
      refine huniq e2 he2 e hmem label ?_ hlabel
      have hqk2 : qk = label := hqk
      rw [← hqk2]
      exact hl2
    rw [he2e, hattr] at ha2
    have haa : a = a2 := (Except.ok.injEq _ _).mp ha2
    rw [← haa, htr] at hta2
    exact Bool.noConfusion hta2
  · rintro ⟨attrs, rfl, hne⟩
    have htr : truthy (Json.arr attrs) = true := by
      cases attrs with
      | nil => exact absurd rfl hne
      | cons x xs => rfl
    rcases forall₂_mem_left hFp e hmem with ⟨o, ho, heE⟩
    cases o with
    | none =>
      rcases edgePropEntry_ok_none_inv e heE with ⟨a2, ha2, hta2⟩
      rw [hattr] at ha2
      have haa : Json.arr attrs = a2 := (Except.ok.injEq _ _).mp ha2
      rw [← haa, htr] at hta2
      exact Bool.noConfusion hta2
    | some q =>
      rcases q with ⟨qk, qv⟩
      rcases edgePropEntry_some_inv e qk qv heE with ⟨hl2, _, _⟩
      have hqk : qk = label := by
        rw [hlabel] at hl2
        exact ((Except.ok.injEq _ _).mp hl2).symm
      rw [hrelp, pyLookup_pyDictOfList]
      intro hnone
      have hqmem : (qk, qv) ∈ List.filterMap id rp :=
        List.mem_filterMap.mpr ⟨some (qk, qv), ho, rfl⟩
      exact (lastLookup_eq_none label _).mp hnone (qk, qv) hqmem hqk
  · rcases forall₂_mem_left hFr e hmem with ⟨r, hr, hrE⟩
    rcases edgeRelEntry_ok_inv e r hrE with ⟨_, _, hl3⟩
    refine ⟨r, by rw [hrels]; exact hr, ?_⟩
    rw [hlabel] at hl3
    exact ((Except.ok.injEq _ _).mp hl3).symm

set_option maxRecDepth 400000 in
/-- C4 witness: the schema with the single edge "K" carrying an empty
attributes array: "K" is absent from `rel_props` (which is empty) while
`relationships` still records the edge. -/
theorem C4_edge_attribute_asymmetry_witness :
    pyLookup (Json.str "K")
      (StructuredSchema.rel_props
        { node_props := [], rel_props := [],
          relationships :=
            [{ start := Json.str "A", «end» := Json.str "B", type := Json.str "K" }] }) =
      none ∧
    (∃ r ∈ StructuredSchema.relationships
        { node_props := [], rel_props := [],
          relationships :=
            [{ start := Json.str "A", «end» := Json.str "B", type := Json.str "K" }] },
      RelEntry.type r = Json.str "K") :=
  have h := C4_edge_attribute_asymmetry
    "\x7b\"vertices\":[],\"edges\":[\x7b\"label\":\"K\",\"from\":\"A\",\"to\":\"B\",\"attributes\":[]\x7d]\x7d"
    (Json.obj
      [("vertices", Json.arr []),
       ("edges",
        Json.arr [Json.obj [("label", Json.str "K"), ("from", Json.str "A"),
          ("to", Json.str "B"), ("attributes", Json.arr [])]])])
    { node_props := [], rel_props := [],
      relationships :=
        [{ start := Json.str "A", «end» := Json.str "B", type := Json.str "K" }] }
    [Json.obj [("label", Json.str "K"), ("from", Json.str "A"), ("to", Json.str "B"),
      ("attributes", Json.arr [])]]
    (Json.obj [("label", Json.str "K"), ("from", Json.str "A"), ("to", Json.str "B"),
      ("attributes", Json.arr [])])
    (Json.str "K") (Json.arr [])
    (by rfl) (by rfl) (by rfl)
    (by
      intro e1 h1 e2 h2 l q1 q2
      rw [List.eq_of_mem_singleton h1, List.eq_of_mem_singleton h2])
    (by simp) (by rfl) (by rfl)
  ⟨h.1 (Or.inr rfl), h.2.2.2⟩

end PuppyGraphVerif
